import Mathlib

/-!
Shallow embedding of `src/sdlc_dashboard.py`, an aerospace SDLC component
dashboard.  The script holds hardcoded requirement, design, code and test
content, writes five artifact files (two Word documents for requirements and
design, a Python source file, a Word document for test cases, and an Excel
traceability spreadsheet) into a fixed output directory, and runs two
verification blocks: one that dynamically loads the generated code file and
calls its three functions on fixed inputs, and one that displays pass/fail
results computed from hardcoded mock values.

The embedding models:
  * the file-name constants and static content dictionaries (as ordered
    association lists, matching Python dict insertion order);
  * the three functions inside the generated code string
    (`calculate_optimal_path`, `validate_flight_plan`, `get_route_weather`);
  * the document writer `create_word_doc` as a list of document elements;
  * the traceability-matrix builder as a list of rows;
  * file generation as an update of an explicit file-system map
    (path to file content), so overwrite and idempotence facts are statable;
  * the second verifier block as a Boolean computation over the hardcoded
    mock values, parameterised by the (unused) generated-file content.
-/

set_option linter.unusedVariables false

namespace SDLC

/-! ## Configuration constants (`sdlc_dashboard.py` lines 13-22) -/

def OUTPUT_DIR : String := "sdlc_artifacts"

def REQ_DOC_NAME : String := "Aero_SRD_A999_FPLN.docx"

def DESIGN_DOC_NAME : String := "Aero_SDD_A999_FPLN.docx"

def CODE_FILE_NAME : String := "Aero_SRC_A999_FPLN.py"

def TEST_DOC_NAME : String := "Aero_TST_A999_FPLN.docx"

def TRACE_FILE_NAME : String := "Aero_A999_FPLN_Traceability.xlsx"

/-- Model of `os.path.join(OUTPUT_DIR, name)`. -/
def filePath (name : String) : String := OUTPUT_DIR ++ "/" ++ name

/-! ## Static content dictionaries (lines 27-101).
Python dicts iterate in insertion order, so each dict is an ordered
association list. -/

def requirements_data : List (String × String) :=
  [("SRD_A999_FPLN_001", "The system shall be able to calculate the optimal flight path between two given waypoints, considering fuel efficiency."),
   ("SRD_A999_FPLN_002", "The system shall validate a given flight plan against standard aviation regulations and constraints (e.g., no-fly zones)."),
   ("SRD_A999_FPLN_003", "The system shall be able to generate a weather summary for a given flight route, highlighting potential hazards like turbulence or icing conditions.")]

def design_data : List (String × String) :=
  [("SDD_A999_FPLN_001", "A function `calculate_optimal_path` will be implemented using the A* search algorithm. It will take departure and arrival waypoints as input and return a sequence of coordinates representing the optimal path."),
   ("SDD_A999_FPLN_002", "A function `validate_flight_plan` will be created. It will accept a flight plan object and cross-reference its route with a database of known no-fly zones and regulatory altitude restrictions. It will return a boolean status and a list of violations."),
   ("SDD_A999_FPLN_003", "A function `get_route_weather` will be designed to interface with a meteorological API. It will take a flight path as input and query the API for weather data points along the route, compiling a summary report.")]

def test_case_data : List (String × List (String × String)) :=
  [("TST_A999_FPLN_001",
    [("Objective", "Verify that the `calculate_optimal_path` function returns a valid path."),
     ("Steps", "1. Call the function with valid departure and arrival waypoints. 2. Check that the returned value is a list of strings."),
     ("Expected Result", "The function executes without errors and returns a list representing a flight path.")]),
   ("TST_A999_FPLN_002",
    [("Objective", "Verify that the `validate_flight_plan` function correctly identifies violations."),
     ("Steps", "1. Create a mock flight plan that passes through a known no-fly zone. 2. Call the function with this plan. 3. Check the return status and violation list."),
     ("Expected Result", "The function should return `False` and a list containing the specific no-fly zone violation.")]),
   ("TST_A999_FPLN_003",
    [("Objective", "Verify that the `get_route_weather` function returns a weather summary."),
     ("Steps", "1. Define a sample flight path. 2. Call the function with this path. 3. Check that the returned value is a dictionary containing weather information."),
     ("Expected Result", "The function returns a dictionary with keys like 'temperature', 'wind', and 'hazards'.")])]

/-! ## String containment, modelling Python substring membership
(`needle in haystack` for strings). -/

/-- Model of Python string prefix test on character lists. -/
def startsWithChars : List Char → List Char → Bool
  | [], _ => true
  | _ :: _, [] => false
  | a :: as, b :: bs => a == b && startsWithChars as bs

/-- Model of Python substring membership on character lists. -/
def containsChars (needle : List Char) : List Char → Bool
  | [] => startsWithChars needle []
  | b :: bs => startsWithChars needle (b :: bs) || containsChars needle bs

/-- Model of the Python expression `needle in hay` for strings. -/
def strContains (hay needle : String) : Bool :=
  containsChars needle.data hay.data

/-! ## The three functions defined inside the generated code string
`code_content` (lines 44-81). -/

/-- Lines 44-53: always returns the fixed mock path, ignoring both
waypoint arguments. -/
def calculate_optimal_path (departure_waypoint arrival_waypoint : String) :
    List String :=
  ["WPT_A", "WPT_B", "WPT_C"]

/-- A flight plan whose `id` and `route` keys are both present, as consumed
by the bodies of `validate_flight_plan` after the key lookups succeed. -/
structure FlightPlan where
  id : String
  route : List String
  deriving DecidableEq, Repr

/-- Lines 55-66: membership test of the marker zone in the route list
(`"NFZ_01" in flight_plan['route']` is list membership in Python). -/
def validate_flight_plan (flight_plan : FlightPlan) : Bool × List String :=
  if "NFZ_01" ∈ flight_plan.route then
    (false, ["Violation: No-Fly Zone NFZ_01"])
  else
    (true, [])

/-- A raw flight-plan dictionary: each of the two keys accessed by
`validate_flight_plan` may be present or absent. -/
structure RawFlightPlan where
  id? : Option String
  route? : Option (List String)

/-- Lines 55-66 at the dictionary level: `flight_plan['id']` (in the print
call) and `flight_plan['route']` are unconditional key lookups; a missing
key raises `KeyError`, modelled as `none`. -/
def validate_flight_plan_dict (flight_plan : RawFlightPlan) :
    Option (Bool × List String) :=
  match flight_plan.id?, flight_plan.route? with
  | some i, some r => some (validate_flight_plan { id := i, route := r })
  | _, _ => none

/-- Lines 68-81: returns the fixed mock weather summary dictionary,
ignoring the flight path argument (which is only printed). -/
def get_route_weather (flight_path : List String) : List (String × String) :=
  [("temperature", "Avg 5°C"),
   ("wind", "25 kts from 270°"),
   ("hazards", "Light turbulence expected near WPT_B")]

/-! ## The generated code file text (lines 41-82).
The Python triple-quoted string starts with a newline; braces of f-strings
and single quotes are written with hexadecimal escapes. -/

def code_content : String :=
  "\n# Aero_SRC_A999_FPLN.py\n\ndef calculate_optimal_path(departure_waypoint, arrival_waypoint):\n    \"\"\"\n    Code ID: SRC_A999_FPLN_001\n    Calculates the optimal flight path. This is a mock implementation.\n    \"\"\"\n    print(f\"Calculating optimal path from \x7bdeparture_waypoint\x7d to \x7barrival_waypoint\x7d...\")\n    # In a real scenario, this would involve complex calculations.\n    optimal_path = [\"WPT_A\", \"WPT_B\", \"WPT_C\"] \n    print(\"Path calculated successfully.\")\n    return optimal_path\n"
  ++ "\ndef validate_flight_plan(flight_plan):\n    \"\"\"\n    Code ID: SRC_A999_FPLN_002\n    Validates a flight plan against regulations. This is a mock implementation.\n    \"\"\"\n    print(f\"Validating flight plan: \x7bflight_plan[\x27id\x27]\x7d...\")\n    # Mock validation logic\n    if \"NFZ_01\" in flight_plan[\x27route\x27]:\n        print(\"Validation Failed: Route intersects with a No-Fly Zone.\")\n        return False, [\"Violation: No-Fly Zone NFZ_01\"]\n    print(\"Flight plan is valid.\")\n    return True, []\n"
  ++ "\ndef get_route_weather(flight_path):\n    \"\"\"\n    Code ID: SRC_A999_FPLN_003\n    Generates a weather summary for a route. This is a mock implementation.\n    \"\"\"\n    print(f\"Fetching weather for route: \x7b\x27 -> \x27.join(flight_path)\x7d...\")\n    # Mock API call\n    weather_summary = \x7b\n        \"temperature\": \"Avg 5°C\",\n        \"wind\": \"25 kts from 270°\",\n        \"hazards\": \"Light turbulence expected near WPT_B\"\n    \x7d\n    print(\"Weather summary generated.\")\n    return weather_summary\n"

/-! ## Document writer (`create_word_doc`, lines 106-122). -/

/-- A value of a content dictionary: plain text (requirements, design) or
nested key-to-text sections (test cases). -/
inductive DocContent where
  | text (s : String)
  | sections (kvs : List (String × String))
  deriving DecidableEq, Repr

/-- One element appended to the Word document. -/
inductive DocElem where
  | heading (level : Nat) (s : String)
  | paragraph (s : String)
  deriving DecidableEq, Repr

/-- Body of the `for item_id, content in content_dict.items()` loop. -/
def renderItem : String × DocContent → List DocElem
  | (item_id, c) =>
    DocElem.heading 2 ("ID: " ++ item_id) ::
    (match c with
     | DocContent.text t => [DocElem.paragraph t]
     | DocContent.sections kvs =>
        kvs.flatMap fun kv => [DocElem.heading 3 kv.1, DocElem.paragraph kv.2])
    ++ [DocElem.paragraph ""]

/-- Lines 106-122: the document built by `create_word_doc` (heading of the
title, then per item an ID heading, its content, and a spacer paragraph). -/
def create_word_doc (title : String) (content_dict : List (String × DocContent)) :
    List DocElem :=
  DocElem.heading 1 title :: content_dict.flatMap renderItem

/-- The requirements dictionary viewed as document content. -/
def requirements_content : List (String × DocContent) :=
  requirements_data.map fun p => (p.1, DocContent.text p.2)

/-- The design dictionary viewed as document content. -/
def design_content : List (String × DocContent) :=
  design_data.map fun p => (p.1, DocContent.text p.2)

/-- The test-case dictionary viewed as document content. -/
def test_case_content : List (String × DocContent) :=
  test_case_data.map fun p => (p.1, DocContent.sections p.2)

/-! ## Traceability matrix (`create_or_update_traceability_matrix`,
lines 131-156). -/

/-- The ID columns of the matrix: the three key lists in dict order and the
hardcoded code-ID list of line 148. -/
def requirement_ids : List String := requirements_data.map Prod.fst

def design_ids : List String := design_data.map Prod.fst

def code_ids : List String :=
  ["SRC_A999_FPLN_001", "SRC_A999_FPLN_002", "SRC_A999_FPLN_003"]

def test_ids : List String := test_case_data.map Prod.fst

/-- One row of the Excel traceability spreadsheet, column per column. -/
structure TraceRow where
  serialNumber : Nat
  reqDocName : String
  reqID : String
  designDocName : String
  designID : String
  codeFileName : String
  codeID : String
  testFileName : String
  testID : String
  deriving DecidableEq, Repr, Inhabited

/-- Lines 136-152: the DataFrame is assembled column-wise from length-3
lists, so row `i` takes serial number `i + 1` and the `i`-th entry of each
ID list, with the fixed document names in every row. -/
def traceability_matrix : List TraceRow :=
  (List.range 3).map fun i =>
    { serialNumber := i + 1
      reqDocName := REQ_DOC_NAME
      reqID := requirement_ids.getD i ""
      designDocName := DESIGN_DOC_NAME
      designID := design_ids.getD i ""
      codeFileName := CODE_FILE_NAME
      codeID := code_ids.getD i ""
      testFileName := TEST_DOC_NAME
      testID := test_ids.getD i "" }

/-! ## File-system model and artifact generation (lines 124-129, 131-156,
168-183). -/

/-- Content of a written artifact file. -/
inductive FileContent where
  | wordDoc (elems : List DocElem)
  | pyFile (s : String)
  | excel (rows : List TraceRow)
  deriving DecidableEq, Repr

/-- The file system as a map from path to content. -/
def FileSystem : Type := String → Option FileContent

/-- An unconditional overwrite of one path. -/
def writeFile (fs : FileSystem) (path : String) (c : FileContent) : FileSystem :=
  fun p => if p = path then some c else fs p

/-- Lines 106-122 as a file-system action: `create_word_doc` saves the
rendered document under `OUTPUT_DIR`. -/
def create_word_doc_file (fs : FileSystem) (filename title : String)
    (content_dict : List (String × DocContent)) : FileSystem :=
  writeFile fs (filePath filename) (FileContent.wordDoc (create_word_doc title content_dict))

/-- Lines 124-129: `create_code_file` overwrites the Python source file. -/
def create_code_file (fs : FileSystem) (filename content : String) : FileSystem :=
  writeFile fs (filePath filename) (FileContent.pyFile content)

/-- Lines 131-156: the traceability builder writes the fixed table; it never
reads the existing file. -/
def create_or_update_traceability_matrix (fs : FileSystem) : FileSystem :=
  writeFile fs (filePath TRACE_FILE_NAME) (FileContent.excel traceability_matrix)

/-- Lines 168-183: the generate-button handler writes the five artifacts in
order. -/
def generate_all_artifacts (fs : FileSystem) : FileSystem :=
  let fs1 := create_word_doc_file fs REQ_DOC_NAME
    "System Requirements Document (SRD)" requirements_content
  let fs2 := create_word_doc_file fs1 DESIGN_DOC_NAME
    "Software Design Document (SDD)" design_content
  let fs3 := create_code_file fs2 CODE_FILE_NAME code_content
  let fs4 := create_word_doc_file fs3 TEST_DOC_NAME
    "Test Case Document (TST)" test_case_content
  create_or_update_traceability_matrix fs4

/-! ## Second verifier: "Run Test Cases against Requirements"
(lines 246-273).  The block never touches the generated file: every value it
checks is a hardcoded mock.  It is therefore modelled as a function of the
generated code file's current content that ignores that argument. -/

/-- Untyped Python values, enough for the isinstance checks of the
verifier blocks. -/
inductive PyVal where
  | pyStr (s : String)
  | pyBool (b : Bool)
  | pyList (xs : List PyVal)
  | pyDict (kvs : List (String × PyVal))

/-- Model of `isinstance(v, list)`. -/
def isinstance_list : PyVal → Bool
  | PyVal.pyList _ => true
  | _ => false

/-- Model of `isinstance(v, dict)`. -/
def isinstance_dict : PyVal → Bool
  | PyVal.pyDict _ => true
  | _ => false

/-- Model of `key in v` for a dict value. -/
def dict_has_key (v : PyVal) (k : String) : Bool :=
  match v with
  | PyVal.pyDict kvs => kvs.any fun kv => kv.1 == k
  | _ => false

/-- Lines 250-256: `path_result` is the hardcoded mock list; PASSED iff it
is a list. -/
def test_case_1_passed : Bool :=
  let path_result : PyVal :=
    PyVal.pyList [PyVal.pyStr "WPT_A", PyVal.pyStr "WPT_B", PyVal.pyStr "WPT_C"]
  isinstance_list path_result

/-- Lines 259-265: hardcoded mock status and violation list; PASSED iff the
status is false and the first violation message contains the substring. -/
def test_case_2_passed : Bool :=
  let valid_status : Bool := false
  let violation_list : List String := ["Violation: No-Fly Zone NFZ_01"]
  !valid_status && strContains (violation_list.getD 0 "") "No-Fly Zone"

/-- Lines 268-273: hardcoded mock weather dict; PASSED iff it is a dict with
the key. -/
def test_case_3_passed : Bool :=
  let weather_result : PyVal :=
    PyVal.pyDict [("hazards", PyVal.pyStr "Light turbulence")]
  isinstance_dict weather_result && dict_has_key weather_result "hazards"

/-- Lines 246-273: outcome of the three simulated test cases.  The block
reads nothing from disk and calls nothing from the generated module, so the
content of the generated code file is an ignored argument. -/
def run_test_cases (generated_code_file : Option FileContent) : List Bool :=
  [test_case_1_passed, test_case_2_passed, test_case_3_passed]

/-! ## Theorems -/

/-- C1: running artifact generation always writes the traceability
spreadsheet with exactly 3 rows, where row `i` (serial numbers 1, 2, 3 in
order) links the `i`-th requirement ID, the `i`-th design ID, the `i`-th
code ID and the `i`-th test ID by fixed list position, together with the
four fixed document file names in every row. -/
theorem traceability_matrix_three_positional_rows :
    (∀ fs : FileSystem,
      generate_all_artifacts fs (filePath TRACE_FILE_NAME) =
        some (FileContent.excel traceability_matrix)) ∧
    traceability_matrix.length = 3 ∧
    ∀ i, i < 3 →
      (traceability_matrix.getD i default).serialNumber = i + 1 ∧
      (traceability_matrix.getD i default).reqDocName = REQ_DOC_NAME ∧
      (traceability_matrix.getD i default).reqID = requirement_ids.getD i "" ∧
      (traceability_matrix.getD i default).designDocName = DESIGN_DOC_NAME ∧
      (traceability_matrix.getD i default).designID = design_ids.getD i "" ∧
      (traceability_matrix.getD i default).codeFileName = CODE_FILE_NAME ∧
      (traceability_matrix.getD i default).codeID = code_ids.getD i "" ∧
      (traceability_matrix.getD i default).testFileName = TEST_DOC_NAME ∧
      (traceability_matrix.getD i default).testID = test_ids.getD i "" := by
  refine ⟨?_, rfl, ?_⟩
  · intro fs
    simp [generate_all_artifacts, create_or_update_traceability_matrix, writeFile]
  · intro i hi
    interval_cases i <;> exact ⟨rfl, rfl, rfl, rfl, rfl, rfl, rfl, rfl, rfl⟩

/-- Witness for C1: the theorem applied at row index 1. -/
theorem traceability_matrix_three_positional_rows_witness :
    (1 : Nat) < 3 ∧
    ((traceability_matrix.getD 1 default).serialNumber = 1 + 1 ∧
     (traceability_matrix.getD 1 default).reqDocName = REQ_DOC_NAME ∧
     (traceability_matrix.getD 1 default).reqID = requirement_ids.getD 1 "" ∧
     (traceability_matrix.getD 1 default).designDocName = DESIGN_DOC_NAME ∧
     (traceability_matrix.getD 1 default).designID = design_ids.getD 1 "" ∧
     (traceability_matrix.getD 1 default).codeFileName = CODE_FILE_NAME ∧
     (traceability_matrix.getD 1 default).codeID = code_ids.getD 1 "" ∧
     (traceability_matrix.getD 1 default).testFileName = TEST_DOC_NAME ∧
     (traceability_matrix.getD 1 default).testID = test_ids.getD 1 "") :=
  ⟨by decide, traceability_matrix_three_positional_rows.2.2 1 (by decide)⟩

/-- C2: the generated code's `calculate_optimal_path` called with
departure "JFK" and arrival "LAX" returns a non-empty list. -/
theorem calculate_optimal_path_jfk_lax_nonempty :
    calculate_optimal_path "JFK" "LAX" ≠ [] ∧
    0 < (calculate_optimal_path "JFK" "LAX").length := by
  constructor <;> simp [calculate_optimal_path]

/-- C3: for every flight plan whose route contains the marker zone
"NFZ_01", `validate_flight_plan` returns `false` together with a non-empty
violation list each of whose messages contains that marker. -/
theorem validate_flight_plan_marker_violation (fp : FlightPlan)
    (h : "NFZ_01" ∈ fp.route) :
    ∃ msgs : List String,
      validate_flight_plan fp = (false, msgs) ∧ msgs ≠ [] ∧
      ∀ m ∈ msgs, strContains m "NFZ_01" = true := by
  refine ⟨["Violation: No-Fly Zone NFZ_01"], ?_, by simp, ?_⟩
  · simp [validate_flight_plan, h]
  · intro m hm
    simp only [List.mem_singleton] at hm
    subst hm
    decide

/-- Witness for C3: the theorem applied to the invalid plan of line 223. -/
theorem validate_flight_plan_marker_violation_witness :
    "NFZ_01" ∈ (["WPT_X", "NFZ_01", "WPT_Y"] : List String) ∧
    ∃ msgs : List String,
      validate_flight_plan
          { id := "FP001", route := ["WPT_X", "NFZ_01", "WPT_Y"] } =
        (false, msgs) ∧ msgs ≠ [] ∧
      ∀ m ∈ msgs, strContains m "NFZ_01" = true :=
  ⟨by decide,
   validate_flight_plan_marker_violation
     { id := "FP001", route := ["WPT_X", "NFZ_01", "WPT_Y"] } (by decide)⟩

/-- C4: for every flight path input, `get_route_weather` returns a mapping
that contains the key "hazards". -/
theorem get_route_weather_has_hazards (flight_path : List String) :
    (List.lookup "hazards" (get_route_weather flight_path)).isSome = true :=
  rfl

/-- C5: re-running artifact generation is idempotent: a second run
overwrites each output file with content identical to the first run's,
leaving the file system unchanged. -/
theorem generate_all_artifacts_idempotent (fs : FileSystem) :
    generate_all_artifacts (generate_all_artifacts fs) =
      generate_all_artifacts fs := by
  funext p
  simp only [generate_all_artifacts, create_word_doc_file, create_code_file,
    create_or_update_traceability_matrix, writeFile]
  by_cases h1 : p = filePath TRACE_FILE_NAME <;>
    by_cases h2 : p = filePath TEST_DOC_NAME <;>
      by_cases h3 : p = filePath CODE_FILE_NAME <;>
        by_cases h4 : p = filePath DESIGN_DOC_NAME <;>
          by_cases h5 : p = filePath REQ_DOC_NAME <;>
            simp [h1, h2, h3, h4, h5]

/-- C6: `create_or_update_traceability_matrix` performs no reconciliation
with a prior version: two runs from arbitrary prior file-system states write
the identical fixed table. -/
theorem create_or_update_traceability_matrix_ignores_prior_state
    (fs1 fs2 : FileSystem) :
    create_or_update_traceability_matrix fs1 (filePath TRACE_FILE_NAME) =
      create_or_update_traceability_matrix fs2 (filePath TRACE_FILE_NAME) ∧
    create_or_update_traceability_matrix fs1 (filePath TRACE_FILE_NAME) =
      some (FileContent.excel traceability_matrix) := by
  constructor <;> simp [create_or_update_traceability_matrix, writeFile]

/-- C7: the test-case verification block computes its pass/fail outcome
entirely from hardcoded mock values, so it reports PASSED for all three test
cases regardless of what the generated code file contains. -/
theorem run_test_cases_all_passed (generated_code_file : Option FileContent) :
    run_test_cases generated_code_file = [true, true, true] :=
  rfl

/-- C8: for every flight plan (with both fields present) whose route does
not contain "NFZ_01", `validate_flight_plan` returns `true` together with an
empty violation list. -/
theorem validate_flight_plan_no_marker (fp : FlightPlan)
    (h : "NFZ_01" ∉ fp.route) :
    validate_flight_plan fp = (true, []) := by
  simp [validate_flight_plan, h]

/-- Witness for C8: the theorem applied to a plan routed through the mock
path waypoints. -/
theorem validate_flight_plan_no_marker_witness :
    "NFZ_01" ∉ (["WPT_A", "WPT_B", "WPT_C"] : List String) ∧
    validate_flight_plan
        { id := "FP002", route := ["WPT_A", "WPT_B", "WPT_C"] } =
      (true, []) :=
  ⟨by decide,
   validate_flight_plan_no_marker
     { id := "FP002", route := ["WPT_A", "WPT_B", "WPT_C"] } (by decide)⟩

/-- C9: `calculate_optimal_path` ignores its arguments: every pair of
departure and arrival waypoints yields exactly
`["WPT_A", "WPT_B", "WPT_C"]`, so any two calls return equal results. -/
theorem calculate_optimal_path_ignores_arguments
    (departure_waypoint arrival_waypoint d2 a2 : String) :
    calculate_optimal_path departure_waypoint arrival_waypoint =
      ["WPT_A", "WPT_B", "WPT_C"] ∧
    calculate_optimal_path departure_waypoint arrival_waypoint =
      calculate_optimal_path d2 a2 :=
  ⟨rfl, rfl⟩

/-- C10: `validate_flight_plan` unconditionally looks up the keys `id` and
`route`, so its dictionary-level run succeeds exactly when both keys are
present; with either key missing the lookup fails. -/
theorem validate_flight_plan_dict_requires_keys (fp : RawFlightPlan) :
    (validate_flight_plan_dict fp).isSome = true ↔
      fp.id?.isSome = true ∧ fp.route?.isSome = true := by
  obtain ⟨i, r⟩ := fp
  cases i <;> cases r <;> simp [validate_flight_plan_dict]

end SDLC
